import Mathlib

/-!
Verification development for the workshop dashboard (src/client_dashboard.py).

The file shallowly embeds the data model of the application: the three
SQLite tables (clientes, carros, orcamentos), the insert handlers of the
form pages, the delivery cascade of pagina_entregas, the report queries
of pagina_exportar, and the schema logic of ensure_column / init_db.
Timestamps are modelled by their date part as a natural number, SQL NULL
columns by Option, and SQLite errors by Except. Claims about the program
are settled as the theorems in the second half of the file.
-/

namespace Workshop

/-- A row of the clientes table: id, nome, telefone, criado_em.
criado_em models the date part of the timestamp column added by init_db. -/
structure Cliente where
  id : Nat
  nome : String
  telefone : String
  criado_em : Nat
deriving DecidableEq, Repr

/-- A row of the carros table; cliente_id is a nullable INTEGER column. -/
structure Carro where
  id : Nat
  cliente_id : Option Nat
  modelo : String
  ano : Int
  cor : String
  status : String
  criado_em : Nat
deriving DecidableEq, Repr

/-- A row of the orcamentos table; carro_id is nullable, prices are kept
as integers since no claim performs arithmetic on them. -/
structure Orcamento where
  id : Nat
  carro_id : Option Nat
  servico : String
  preco_estimado : Int
  preco_final : Int
  criado_em : Nat
deriving DecidableEq, Repr

/-- Database state: the three tables together with the AUTOINCREMENT
sequence counter of each table. -/
@[ext]
structure DB where
  clientes : List Cliente
  carros : List Carro
  orcamentos : List Orcamento
  seq_clientes : Nat
  seq_carros : Nat
  seq_orcamentos : Nat
deriving DecidableEq, Repr

def emptyDB : DB := ⟨[], [], [], 0, 0, 0⟩

/-- The SQL inner join carros JOIN clientes ON carros.cliente_id = clientes.id:
one pair per carro row and matching cliente row. A NULL cliente_id matches
no client (SQL equality with NULL is never TRUE). -/
def joinCarrosClientes (s : DB) : List (Carro × Cliente) :=
  s.carros.flatMap (fun w =>
    (s.clientes.filter (fun c => decide (some c.id = w.cliente_id))).map (fun c => (w, c)))

/-- Projected row of the vehicle listing and export queries:
carros.id, clientes.nome AS cliente, modelo, ano, cor, status, carros.criado_em. -/
structure CarroView where
  id : Nat
  cliente : String
  modelo : String
  ano : Int
  cor : String
  status : String
  criado_em : Nat
deriving DecidableEq, Repr

def mkCarroView (w : Carro) (c : Cliente) : CarroView :=
  ⟨w.id, c.nome, w.modelo, w.ano, w.cor, w.status, w.criado_em⟩

/-- The row set the vehicle/client join projects. -/
def carrosViewRows (s : DB) : List CarroView :=
  (joinCarrosClientes s).map (fun p => mkCarroView p.1 p.2)

/-- Columns of CREATE TABLE IF NOT EXISTS clientes. -/
def clientesCols : List String := ["id", "nome", "telefone"]

/-- Columns of CREATE TABLE IF NOT EXISTS carros. -/
def carrosCols : List String := ["id", "cliente_id", "modelo", "ano", "cor", "status"]

/-- Columns of CREATE TABLE IF NOT EXISTS orcamentos. -/
def orcamentosCols : List String := ["id", "carro_id", "servico", "preco_estimado", "preco_final"]

/-- Schema-level state of one table: its column list together with whether
the table currently contains any row. Row occupancy matters because SQLite
rejects ALTER TABLE ADD COLUMN with a non-constant default expression on a
table that already has rows. -/
structure TableState where
  cols : List String
  hasRows : Bool
deriving DecidableEq, Repr

/-- Schema state: for each of the three tables, none when the table is
absent, otherwise its table state. -/
structure Schema where
  clientes : Option TableState
  carros : Option TableState
  orcamentos : Option TableState
deriving DecidableEq, Repr

/-- ALTER TABLE ... ADD COLUMN: SQLite raises an error when the column
already exists, and rejects a column whose DEFAULT is a non-constant
expression whenever the table already contains rows; otherwise it appends
the column. -/
def addColumn (t : TableState) (col : String) (nonconstDefault : Bool) :
    Except String TableState :=
  if col ∈ t.cols then Except.error ("duplicate column name: " ++ col)
  else if nonconstDefault && t.hasRows then
    Except.error "Cannot add a column with non-constant default"
  else Except.ok ⟨t.cols ++ [col], t.hasRows⟩

/-- ensure_column: inspect PRAGMA table_info and attempt the ALTER only
when the column is missing. -/
def ensure_column (t : TableState) (col : String) (nonconstDefault : Bool) :
    Except String TableState :=
  if col ∈ t.cols then Except.ok t else addColumn t col nonconstDefault

/-- CREATE TABLE IF NOT EXISTS: keep the existing table, or create it with
the given base columns and no rows. -/
def createTableIfNotExists (t : Option TableState) (cols : List String) : TableState :=
  t.getD ⟨cols, false⟩

/-- init_db: create the three tables when absent, then ensure each one has
the criado_em column. The DDL of that column carries the datetime default,
a non-constant expression, so the flag is true at every call site. Any
SQLite error aborts the remaining statements. -/
def init_db (s : Schema) : Except String Schema :=
  match ensure_column (createTableIfNotExists s.clientes clientesCols) "criado_em" true with
  | Except.error e => Except.error e
  | Except.ok c =>
    match ensure_column (createTableIfNotExists s.carros carrosCols) "criado_em" true with
    | Except.error e => Except.error e
    | Except.ok k =>
      match ensure_column (createTableIfNotExists s.orcamentos orcamentosCols) "criado_em" true with
      | Except.error e => Except.error e
      | Except.ok o => Except.ok ⟨some c, some k, some o⟩

/-- Column set of clientes after init_db has run. -/
def clientesColsMigrated : List String := clientesCols ++ ["criado_em"]

/-- Column set of carros after init_db has run. -/
def carrosColsMigrated : List String := carrosCols ++ ["criado_em"]

/-- A column reference in a SELECT projection: qualified by a table name
or bare. -/
inductive ColRef where
  | qualified (table col : String)
  | bare (col : String)
deriving DecidableEq, Repr

/-- SQLite name resolution against the joined tables carros and clientes
with their post-migration column sets: a bare name found in both tables is
ambiguous, a name found in neither does not exist. -/
def resolveColRef : ColRef → Except String Unit
  | ColRef.qualified t c =>
    if (t = "carros" ∧ c ∈ carrosColsMigrated) ∨ (t = "clientes" ∧ c ∈ clientesColsMigrated) then
      Except.ok ()
    else Except.error ("no such column: " ++ t ++ "." ++ c)
  | ColRef.bare c =>
    if c ∈ carrosColsMigrated ∧ c ∈ clientesColsMigrated then
      Except.error ("ambiguous column name: " ++ c)
    else if c ∈ carrosColsMigrated ∨ c ∈ clientesColsMigrated then Except.ok ()
    else Except.error ("no such column: " ++ c)

def resolveProjection : List ColRef → Except String Unit
  | [] => Except.ok ()
  | r :: rs =>
    match resolveColRef r with
    | Except.error e => Except.error e
    | Except.ok _ => resolveProjection rs

/-- The projection of the vehicles-page listing query exactly as written in
the source: SELECT carros.id, clientes.nome AS cliente, modelo, ano, cor,
status, criado_em. The final criado_em is bare. -/
def pagina_carros_projection : List ColRef :=
  [ColRef.qualified "carros" "id", ColRef.qualified "clientes" "nome", ColRef.bare "modelo",
   ColRef.bare "ano", ColRef.bare "cor", ColRef.bare "status", ColRef.bare "criado_em"]

/-- The vehicles-page listing query: SQLite resolves the projection against
the joined tables and only then produces the join rows. -/
def pagina_carros_rows (s : DB) : Except String (List CarroView) :=
  match resolveProjection pagina_carros_projection with
  | Except.error e => Except.error e
  | Except.ok _ => Except.ok (carrosViewRows s)

/-- The submit handler of the clients page. The guard is the truthiness
test on the raw nome string; the returned Option String is the toast
shown to the user (none when nothing is shown). -/
def pagina_clientes_submit (nome telefone : String) (now : Nat) (s : DB) : DB × Option String :=
  if nome = "" then (s, none)
  else
    ({ s with
        clientes := s.clientes ++ [⟨s.seq_clientes + 1, nome, telefone, now⟩],
        seq_clientes := s.seq_clientes + 1 },
     some "Cliente adicionado!")

/-- The submit handler of the vehicles page: no-op when no client exists;
otherwise the selectbox choice is looked up as the first client with that
name and the INSERT is guarded by the truthiness of modelo. -/
def pagina_carros_submit (cliente_nome modelo : String) (ano : Int) (cor status : String)
    (now : Nat) (s : DB) : DB :=
  if s.clientes.isEmpty then s
  else
    match s.clientes.find? (fun c => decide (c.nome = cliente_nome)) with
    | none => s
    | some c =>
      if modelo = "" then s
      else
        { s with
            carros := s.carros ++ [⟨s.seq_carros + 1, some c.id, modelo, ano, cor, status, now⟩],
            seq_carros := s.seq_carros + 1 }

/-- The submit handler of the quotes page: first carro with the chosen
modelo, INSERT guarded by the truthiness of servico. -/
def pagina_orcamentos_submit (modelo servico : String) (pe pf : Int) (now : Nat) (s : DB) : DB :=
  if s.carros.isEmpty then s
  else
    match s.carros.find? (fun w => decide (w.modelo = modelo)) with
    | none => s
    | some w =>
      if servico = "" then s
      else
        { s with
            orcamentos := s.orcamentos ++ [⟨s.seq_orcamentos + 1, some w.id, servico, pe, pf, now⟩],
            seq_orcamentos := s.seq_orcamentos + 1 }

/-- One iteration of the delivery loop:
DELETE FROM orcamentos WHERE carro_id equals the id, then
DELETE FROM carros WHERE id equals the id. -/
def cascadeStep (s : DB) (cid : Nat) : DB :=
  { s with
      orcamentos := s.orcamentos.filter (fun q => decide (q.carro_id ≠ some cid)),
      carros := s.carros.filter (fun w => decide (w.id ≠ cid)) }

/-- The per-vehicle deletion loop over the selected ids. -/
def phase1 (ids : List Nat) (s : DB) : DB := ids.foldl cascadeStep s

/-- DELETE FROM clientes WHERE id NOT IN (SELECT DISTINCT cliente_id FROM
carros), with SQL three-valued logic: a row is deleted only when the
predicate is TRUE, so a client is kept when its id appears among the
remaining cliente_id values or when a NULL appears among them. When the
carros table is empty the predicate is TRUE for every client. -/
def orphanSweep (s : DB) : DB :=
  { s with
      clientes := s.clientes.filter (fun c =>
        decide (some c.id ∈ s.carros.map (fun w => w.cliente_id) ∨
                none ∈ s.carros.map (fun w => w.cliente_id))) }

/-- The delivery cascade as implemented: the per-vehicle loop, then one
orphan sweep. -/
def cascadeDelete (ids : List Nat) (s : DB) : DB := orphanSweep (phase1 ids s)

/-- Modelled from the spec: the reference two-phase cascade, which removes
every selected vehicle and all of their quotes in one step before the
orphan sweep runs. -/
def removeSelected (ids : List Nat) (s : DB) : DB :=
  { s with
      orcamentos := s.orcamentos.filter (fun q => decide (∀ cid ∈ ids, q.carro_id ≠ some cid)),
      carros := s.carros.filter (fun w => decide (w.id ∉ ids)) }

/-- Modelled from the spec: two-phase reference algorithm for the cascade. -/
def twoPhaseCascade (ids : List Nat) (s : DB) : DB := orphanSweep (removeSelected ids s)

/-- Delivery candidates: the join restricted to status Pronto, as on the
deliveries page. -/
def entregasCandidatos (s : DB) : List (Carro × Cliente) :=
  (joinCarrosClientes s).filter (fun p => decide (p.1.status = "Pronto"))

/-- The desc label built for the multiselect of the deliveries page. -/
def descOf (p : Carro × Cliente) : String :=
  p.2.nome ++ " – " ++ p.1.modelo ++ " (" ++ p.1.cor ++ ")"

/-- The remove-selected action of the deliveries page: early return when
no vehicle is Pronto, no deletion when the selection is empty, otherwise
the cascade over the ids of the candidates whose desc was selected. -/
def pagina_entregas_remove (selected : List String) (s : DB) : DB :=
  if (entregasCandidatos s).isEmpty then s
  else if selected.isEmpty then s
  else
    cascadeDelete
      (((entregasCandidatos s).filter (fun p => decide (descOf p ∈ selected))).map
        (fun p => p.1.id)) s

/-- pd.read_sql: a pure read returning the rows and the unchanged state. -/
def read_sql (q : DB → α) (s : DB) : α × DB := (q s, s)

/-- The export vehicles query: the join plus
WHERE date(carros.criado_em) BETWEEN the two bounds, inclusive. -/
def exportCarrosQuery (d1 d2 : Nat) (s : DB) : List CarroView :=
  ((joinCarrosClientes s).filter
    (fun p => decide (d1 ≤ p.1.criado_em ∧ p.1.criado_em ≤ d2))).map
    (fun p => mkCarroView p.1 p.2)

/-- The three row sets previewed and exported by the export page. -/
structure Report where
  clientes : List Cliente
  carros : List CarroView
  orcamentos : List Orcamento
deriving DecidableEq, Repr

/-- The export page: the vehicles query, then the pandas status narrowing
applied only when the selected status list is nonempty, then the clients
and quotes date-range queries. The database state is threaded through
every read. -/
def pagina_exportar (d1 d2 : Nat) (filt : List String) (s : DB) : Report × DB :=
  let r1 := read_sql (exportCarrosQuery d1 d2) s
  let carros := if filt.isEmpty then r1.1 else r1.1.filter (fun r => decide (r.status ∈ filt))
  let r2 := read_sql
    (fun t => t.clientes.filter (fun c => decide (d1 ≤ c.criado_em ∧ c.criado_em ≤ d2))) r1.2
  let r3 := read_sql
    (fun t => t.orcamentos.filter (fun q => decide (d1 ≤ q.criado_em ∧ q.criado_em ≤ d2))) r2.2
  (⟨r2.1, carros, r3.1⟩, r3.2)

/-- The report builder: the row sets produced by the export page. -/
def buildReport (d1 d2 : Nat) (filt : List String) (s : DB) : Report :=
  (pagina_exportar d1 d2 filt s).1

/-- The state-changing user operations of the application. -/
inductive Op where
  | cliente (nome telefone : String) (now : Nat)
  | carro (cliente_nome modelo : String) (ano : Int) (cor status : String) (now : Nat)
  | orcamento (modelo servico : String) (pe pf : Int) (now : Nat)
  | entregar (selected : List String)
  | exportar (d1 d2 : Nat) (filt : List String)

def runOp (s : DB) : Op → DB
  | Op.cliente nome telefone now => (pagina_clientes_submit nome telefone now s).1
  | Op.carro cn m a c st now => pagina_carros_submit cn m a c st now s
  | Op.orcamento m sv pe pf now => pagina_orcamentos_submit m sv pe pf now s
  | Op.entregar sel => pagina_entregas_remove sel s
  | Op.exportar d1 d2 filt => (pagina_exportar d1 d2 filt s).2

def run (ops : List Op) (s : DB) : DB := ops.foldl runOp s

/-- Well-formedness of the carros table maintained by the AUTOINCREMENT
primary key: every id is bounded by the sequence counter and the ids are
pairwise distinct. -/
def CarrosWF (s : DB) : Prop :=
  (∀ w ∈ s.carros, w.id ≤ s.seq_carros) ∧ (s.carros.map (fun w => w.id)).Nodup

/-! ### Helper lemmas about the cascade -/

theorem phase1_nil (s : DB) : phase1 [] s = s := rfl

theorem phase1_cons (c : Nat) (ids : List Nat) (s : DB) :
    phase1 (c :: ids) s = phase1 ids (cascadeStep s c) := rfl

theorem phase1_clientes (ids : List Nat) (s : DB) : (phase1 ids s).clientes = s.clientes := by
  induction ids generalizing s with
  | nil => rfl
  | cons c ids ih => rw [phase1_cons, ih]; rfl

theorem phase1_seq_carros (ids : List Nat) (s : DB) :
    (phase1 ids s).seq_carros = s.seq_carros := by
  induction ids generalizing s with
  | nil => rfl
  | cons c ids ih => rw [phase1_cons, ih]; rfl

theorem phase1_seq_clientes (ids : List Nat) (s : DB) :
    (phase1 ids s).seq_clientes = s.seq_clientes := by
  induction ids generalizing s with
  | nil => rfl
  | cons c ids ih => rw [phase1_cons, ih]; rfl

theorem phase1_seq_orcamentos (ids : List Nat) (s : DB) :
    (phase1 ids s).seq_orcamentos = s.seq_orcamentos := by
  induction ids generalizing s with
  | nil => rfl
  | cons c ids ih => rw [phase1_cons, ih]; rfl

theorem phase1_carros (ids : List Nat) (s : DB) :
    (phase1 ids s).carros = s.carros.filter (fun w => decide (w.id ∉ ids)) := by
  induction ids generalizing s with
  | nil =>
    rw [phase1_nil]
    symm
    rw [List.filter_eq_self]
    intro a _
    simp
  | cons c ids ih =>
    rw [phase1_cons, ih]
    show (s.carros.filter _).filter _ = _
    rw [List.filter_filter]
    apply List.filter_congr
    intro w _
    rw [Bool.eq_iff_iff]
    simp only [Bool.and_eq_true, decide_eq_true_eq, List.mem_cons, not_or]
    tauto

theorem phase1_orcamentos (ids : List Nat) (s : DB) :
    (phase1 ids s).orcamentos =
      s.orcamentos.filter (fun q => decide (∀ cid ∈ ids, q.carro_id ≠ some cid)) := by
  induction ids generalizing s with
  | nil =>
    rw [phase1_nil]
    symm
    rw [List.filter_eq_self]
    intro a _
    simp
  | cons c ids ih =>
    rw [phase1_cons, ih]
    show (s.orcamentos.filter _).filter _ = _
    rw [List.filter_filter]
    apply List.filter_congr
    intro q _
    rw [Bool.eq_iff_iff]
    simp only [Bool.and_eq_true, decide_eq_true_eq, List.forall_mem_cons]
    tauto

theorem orphanSweep_carros (s : DB) : (orphanSweep s).carros = s.carros := rfl

theorem orphanSweep_orcamentos (s : DB) : (orphanSweep s).orcamentos = s.orcamentos := rfl

theorem orphanSweep_clientes (s : DB) :
    (orphanSweep s).clientes = s.clientes.filter (fun c =>
      decide (some c.id ∈ s.carros.map (fun w => w.cliente_id) ∨
              none ∈ s.carros.map (fun w => w.cliente_id))) := rfl

theorem cascadeDelete_carros (ids : List Nat) (s : DB) :
    (cascadeDelete ids s).carros = s.carros.filter (fun w => decide (w.id ∉ ids)) := by
  rw [cascadeDelete, orphanSweep_carros, phase1_carros]

theorem cascadeDelete_orcamentos (ids : List Nat) (s : DB) :
    (cascadeDelete ids s).orcamentos =
      s.orcamentos.filter (fun q => decide (∀ cid ∈ ids, q.carro_id ≠ some cid)) := by
  rw [cascadeDelete, orphanSweep_orcamentos, phase1_orcamentos]

theorem cascadeDelete_clientes (ids : List Nat) (s : DB) :
    (cascadeDelete ids s).clientes = s.clientes.filter (fun c =>
      decide (some c.id ∈ (phase1 ids s).carros.map (fun w => w.cliente_id) ∨
              none ∈ (phase1 ids s).carros.map (fun w => w.cliente_id))) := by
  rw [cascadeDelete, orphanSweep_clientes, phase1_clientes]

/-! ### Membership helpers for the join and report queries -/

theorem mem_joinCarrosClientes {s : DB} {p : Carro × Cliente} :
    p ∈ joinCarrosClientes s ↔
      p.1 ∈ s.carros ∧ p.2 ∈ s.clientes ∧ some p.2.id = p.1.cliente_id := by
  simp only [joinCarrosClientes, List.mem_flatMap, List.mem_map, List.mem_filter,
    decide_eq_true_eq]
  constructor
  · rintro ⟨w, hw, c, ⟨hc, hid⟩, rfl⟩
    exact ⟨hw, hc, hid⟩
  · rintro ⟨h1, h2, h3⟩
    exact ⟨p.1, h1, p.2, ⟨h2, h3⟩, rfl⟩

theorem mem_exportCarrosQuery {s : DB} {d1 d2 : Nat} {r : CarroView} :
    r ∈ exportCarrosQuery d1 d2 s ↔
      ∃ w : Carro, ∃ c : Cliente, w ∈ s.carros ∧ c ∈ s.clientes ∧ some c.id = w.cliente_id ∧
        d1 ≤ w.criado_em ∧ w.criado_em ≤ d2 ∧ r = mkCarroView w c := by
  simp only [exportCarrosQuery, List.mem_map, List.mem_filter, decide_eq_true_eq]
  constructor
  · rintro ⟨p, ⟨hj, hd1, hd2⟩, rfl⟩
    obtain ⟨h1, h2, h3⟩ := mem_joinCarrosClientes.mp hj
    exact ⟨p.1, p.2, h1, h2, h3, hd1, hd2, rfl⟩
  · rintro ⟨w, c, h1, h2, h3, hd1, hd2, rfl⟩
    exact ⟨(w, c), ⟨mem_joinCarrosClientes.mpr ⟨h1, h2, h3⟩, hd1, hd2⟩, rfl⟩

theorem buildReport_clientes (d1 d2 : Nat) (filt : List String) (s : DB) :
    (buildReport d1 d2 filt s).clientes =
      s.clientes.filter (fun c => decide (d1 ≤ c.criado_em ∧ c.criado_em ≤ d2)) := rfl

theorem buildReport_orcamentos (d1 d2 : Nat) (filt : List String) (s : DB) :
    (buildReport d1 d2 filt s).orcamentos =
      s.orcamentos.filter (fun q => decide (d1 ≤ q.criado_em ∧ q.criado_em ≤ d2)) := rfl

theorem buildReport_carros (d1 d2 : Nat) (filt : List String) (s : DB) :
    (buildReport d1 d2 filt s).carros =
      if filt.isEmpty then exportCarrosQuery d1 d2 s
      else (exportCarrosQuery d1 d2 s).filter (fun r => decide (r.status ∈ filt)) := rfl

/-! ### Claim theorems -/

/-- Claim C5: for every selection of vehicle ids and every database state,
the implemented cascade (per-vehicle loop deleting the quotes of each
vehicle and then the vehicle row, followed by one orphan sweep after the
loop) produces exactly the state of the reference two-phase algorithm in
which all selected vehicles and their quotes are removed before the sweep
runs. -/
theorem C5_cascade_refines_two_phase (ids : List Nat) (s : DB) :
    cascadeDelete ids s = twoPhaseCascade ids s := by
  rw [cascadeDelete, twoPhaseCascade]
  congr 1
  apply DB.ext
  · rw [phase1_clientes]; rfl
  · rw [phase1_carros]; rfl
  · rw [phase1_orcamentos]; rfl
  · rw [phase1_seq_clientes]; rfl
  · rw [phase1_seq_carros]; rfl
  · rw [phase1_seq_orcamentos]; rfl

/-- Claim C6: building a report mutates nothing: the state threaded through
all three report reads of the export page is the input state, so every
table is left unchanged. -/
theorem C6_report_is_read_only (d1 d2 : Nat) (filt : List String) (s : DB) :
    (pagina_exportar d1 d2 filt s).2 = s := rfl

/-- A database holding a single vehicle whose cliente_id references no
existing client, with created date 5 and status Pronto. -/
def orphanReportDB : DB := ⟨[], [⟨1, some 99, "M", 2020, "c", "Pronto", 5⟩], [], 0, 1, 0⟩

/-- Claim C4 (counterexample): the vehicle of orphanReportDB has its created
date inside the range 0..10 and its status inside the filter, yet the
report builder returns no vehicle row at all, because the inner join with
clientes drops the row. This refutes the claim that the report returns
exactly the vehicle rows whose date is in range and whose status is in the
filter. -/
theorem C4_counterexample :
    (⟨1, some 99, "M", 2020, "c", "Pronto", 5⟩ : Carro) ∈ orphanReportDB.carros ∧
    (0 : Nat) ≤ 5 ∧ (5 : Nat) ≤ 10 ∧ "Pronto" ∈ ["Pronto"] ∧
    (buildReport 0 10 ["Pronto"] orphanReportDB).carros = [] := by decide

/-- One client with two in-range vehicles (one Pronto, one not) and one
out-of-range Pronto vehicle, for the concrete filtering scenario. -/
def reportDemoDB : DB :=
  ⟨[⟨1, "Ana", "t", 5⟩],
   [⟨1, some 1, "M1", 2020, "c", "Em revisão", 5⟩,
    ⟨2, some 1, "M2", 2020, "c", "Pronto", 5⟩,
    ⟨3, some 1, "M3", 2020, "c", "Pronto", 20⟩],
   [], 1, 3, 0⟩

/-- Claim C4 (amended): the report builder returns exactly the client and
quote rows whose created date is within the inclusive range; the vehicle
rows are exactly those whose created date is within range, whose
cliente_id matches an existing client row (inner join, so orphaned
vehicles are excluded), and whose status is in the filter when the filter
is nonempty (an empty filter applies no status narrowing). In particular,
on reportDemoDB with statuses Em revisão, Pronto, Pronto and mixed dates,
filtering range 0..10 on Pronto yields only the in-range Pronto vehicle. -/
theorem C4_report_filtering (s : DB) (d1 d2 : Nat) (filt : List String) :
    (∀ c : Cliente, c ∈ (buildReport d1 d2 filt s).clientes ↔
      (c ∈ s.clientes ∧ d1 ≤ c.criado_em ∧ c.criado_em ≤ d2)) ∧
    (∀ q : Orcamento, q ∈ (buildReport d1 d2 filt s).orcamentos ↔
      (q ∈ s.orcamentos ∧ d1 ≤ q.criado_em ∧ q.criado_em ≤ d2)) ∧
    (∀ r : CarroView, r ∈ (buildReport d1 d2 filt s).carros ↔
      (∃ w : Carro, ∃ c : Cliente, w ∈ s.carros ∧ c ∈ s.clientes ∧ some c.id = w.cliente_id ∧
        d1 ≤ w.criado_em ∧ w.criado_em ≤ d2 ∧ (filt = [] ∨ w.status ∈ filt) ∧
        r = mkCarroView w c)) ∧
    (buildReport 0 10 ["Pronto"] reportDemoDB).carros =
      [mkCarroView ⟨2, some 1, "M2", 2020, "c", "Pronto", 5⟩ ⟨1, "Ana", "t", 5⟩] := by
  refine ⟨?_, ?_, ?_, by decide⟩
  · intro c
    rw [buildReport_clientes]
    simp [List.mem_filter, and_assoc]
  · intro q
    rw [buildReport_orcamentos]
    simp [List.mem_filter, and_assoc]
  · intro r
    rw [buildReport_carros]
    by_cases hf : filt.isEmpty
    · rw [if_pos hf, mem_exportCarrosQuery]
      have hfe : filt = [] := List.isEmpty_iff.mp hf
      subst hfe
      constructor
      · rintro ⟨w, c, h1, h2, h3, h4, h5, rfl⟩
        exact ⟨w, c, h1, h2, h3, h4, h5, Or.inl rfl, rfl⟩
      · rintro ⟨w, c, h1, h2, h3, h4, h5, _, rfl⟩
        exact ⟨w, c, h1, h2, h3, h4, h5, rfl⟩
    · rw [if_neg hf]
      have hfe : ¬ filt = [] := fun h => hf (by rw [h]; rfl)
      simp only [List.mem_filter, mem_exportCarrosQuery, decide_eq_true_eq]
      constructor
      · rintro ⟨⟨w, c, h1, h2, h3, h4, h5, rfl⟩, hst⟩
        exact ⟨w, c, h1, h2, h3, h4, h5, Or.inr hst, rfl⟩
      · rintro ⟨w, c, h1, h2, h3, h4, h5, hst, rfl⟩
        rcases hst with hst | hst
        · exact absurd hst hfe
        · exact ⟨⟨w, c, h1, h2, h3, h4, h5, rfl⟩, hst⟩

/-- Claim C2 (counterexample): submitting the whitespace-only name
consisting of three blanks (empty after trimming) writes one row, because
the guard is the truthiness of the raw string and performs no trimming;
and submitting the literally empty name produces no message at all, so no
validation error is reported to the submitter. -/
theorem C2_counterexample :
    (pagina_clientes_submit "   " "555-0100" 0 emptyDB).1.clientes.length = 1 ∧
    (pagina_clientes_submit "" "555-0100" 0 emptyDB).2 = none := by decide

/-- Claim C2 (amended): only the literally empty name is rejected, and the
rejection is silent (no message of any kind is shown); every name that is
a nonempty raw string, whitespace-only names included, appends exactly one
new client row with the positive id one past the sequence counter, and
shows a success toast rather than a validation message. -/
theorem C2_insert_client_validation (nome telefone : String) (now : Nat) (s : DB) :
    (nome = "" → pagina_clientes_submit nome telefone now s = (s, none)) ∧
    (nome ≠ "" →
      (pagina_clientes_submit nome telefone now s).1.clientes =
        s.clientes ++ [⟨s.seq_clientes + 1, nome, telefone, now⟩] ∧
      0 < s.seq_clientes + 1 ∧
      (pagina_clientes_submit nome telefone now s).2 = some "Cliente adicionado!") := by
  constructor
  · intro h
    rw [pagina_clientes_submit, if_pos h]
  · intro h
    rw [pagina_clientes_submit, if_neg h]
    exact ⟨rfl, Nat.succ_pos _, rfl⟩

/-- Claim C2 (witness): inserting the name Ana Silva into the empty
database appends exactly one client row with id one. -/
theorem C2_witness :
    (pagina_clientes_submit "Ana Silva" "555-0100" 0 emptyDB).1.clientes =
      emptyDB.clientes ++ [⟨emptyDB.seq_clientes + 1, "Ana Silva", "555-0100", 0⟩] :=
  ((C2_insert_client_validation "Ana Silva" "555-0100" 0 emptyDB).2 (by decide)).1

/-- A pre-migration database from an earlier release: the three tables
exist with their base columns only and already contain rows. -/
def legacySchema : Schema :=
  ⟨some ⟨clientesCols, true⟩, some ⟨carrosCols, true⟩, some ⟨orcamentosCols, true⟩⟩

/-- The schema produced by running init_db on an empty database file: the
tables are created empty, so all three ALTER statements succeed. -/
def migratedSchema : Schema :=
  ⟨some ⟨clientesCols ++ ["criado_em"], false⟩, some ⟨carrosCols ++ ["criado_em"], false⟩,
   some ⟨orcamentosCols ++ ["criado_em"], false⟩⟩

/-- A fully migrated database that has since accumulated rows. -/
def populatedMigratedSchema : Schema :=
  ⟨some ⟨clientesCols ++ ["criado_em"], true⟩, some ⟨carrosCols ++ ["criado_em"], true⟩,
   some ⟨orcamentosCols ++ ["criado_em"], true⟩⟩

/-- Claim C3 (code bug): schema-ensure is not error-free on every starting
database state. On a pre-migration database whose tables already contain
rows, the ALTER TABLE ADD COLUMN statement carries the non-constant
datetime default, which SQLite rejects on a non-empty table, so init_db
fails on the first run and identically on the failed-state second run —
precisely the legacy-migration scenario the ensure-column guard exists
for. On a fresh database the tables are created empty and the migration
succeeds, a second run returns the same schema without error, and a
populated database that already has the column is also error-free, so the
failure is confined to exactly the case the claim and the spec intend to
cover. -/
theorem C3_nonconst_default_breaks_migration :
    init_db legacySchema = Except.error "Cannot add a column with non-constant default" ∧
    init_db (⟨none, none, none⟩ : Schema) = Except.ok migratedSchema ∧
    init_db migratedSchema = Except.ok migratedSchema ∧
    init_db populatedMigratedSchema = Except.ok populatedMigratedSchema :=
  ⟨rfl, rfl, rfl, rfl⟩

/-- Client one owns exactly vehicles one and two (with quote one on
vehicle one); client two owns no vehicle at all. -/
def cexA : DB :=
  ⟨[⟨1, "C1", "t", 0⟩, ⟨2, "C2", "t", 0⟩],
   [⟨1, some 1, "V1", 2020, "azul", "Pronto", 0⟩, ⟨2, some 1, "V2", 2021, "azul", "Pronto", 0⟩],
   [⟨1, some 1, "serv", 100, 100, 0⟩], 2, 2, 1⟩

/-- As cexA but with a third vehicle whose cliente_id is NULL and only
client one present. -/
def cexB : DB :=
  ⟨[⟨1, "C1", "t", 0⟩],
   [⟨1, some 1, "V1", 2020, "azul", "Pronto", 0⟩, ⟨2, some 1, "V2", 2021, "azul", "Pronto", 0⟩,
    ⟨3, none, "X", 2019, "preto", "Em revisão", 0⟩],
   [⟨1, some 1, "serv", 100, 100, 0⟩], 1, 3, 1⟩

/-- Claim C1 (counterexample). In cexA, client two is an unrelated row (it
owns no vehicle, is referenced by nothing, and is unaffected by removing
vehicle one), yet the cascade on the selection of vehicle one deletes it:
the orphan sweep removes every client without vehicles, related or not. In
cexB, after deleting both vehicles of client one, no vehicle row references
client one any more, yet client one is NOT removed: the remaining NULL
cliente_id disables the orphan sweep. Both runs contradict the claim as
stated. -/
theorem C1_counterexample :
    (⟨2, "C2", "t", 0⟩ : Cliente) ∈ cexA.clientes ∧
    (⟨2, "C2", "t", 0⟩ : Cliente) ∉ (cascadeDelete [1] cexA).clientes ∧
    (⟨1, "C1", "t", 0⟩ : Cliente) ∈ (cascadeDelete [1, 2] cexB).clientes := by decide

/-- Claim C1 (amended): for every state containing a client c1 whose
vehicles are exactly v1 and v2 (distinct ids) and a quote q1 owned by v1,
the cascade on the selection of v1 removes q1 and every vehicle with the
id of v1, keeps v2, keeps c1, keeps every other vehicle and every quote
not owned by v1, and keeps exactly those clients that are referenced by a
remaining vehicle or coexist with a remaining NULL reference (so unrelated
clients owning no vehicle are deleted rather than left intact); the
cascade on the selection of v1 and v2 additionally removes c1 provided no
remaining vehicle carries a NULL cliente_id. -/
theorem C1_cascade_behaviour (s : DB) (c1 : Cliente) (v1 v2 : Carro) (q1 : Orcamento)
    (hc1 : c1 ∈ s.clientes) (_hv1 : v1 ∈ s.carros) (hv2 : v2 ∈ s.carros)
    (hne : v1.id ≠ v2.id) (_hr1 : v1.cliente_id = some c1.id) (hr2 : v2.cliente_id = some c1.id)
    (_hq1 : q1 ∈ s.orcamentos) (hqc : q1.carro_id = some v1.id)
    (hexact : ∀ w ∈ s.carros, w.cliente_id = some c1.id → w.id = v1.id ∨ w.id = v2.id) :
    q1 ∉ (cascadeDelete [v1.id] s).orcamentos ∧
    (∀ w ∈ (cascadeDelete [v1.id] s).carros, w.id ≠ v1.id) ∧
    v2 ∈ (cascadeDelete [v1.id] s).carros ∧
    c1 ∈ (cascadeDelete [v1.id] s).clientes ∧
    (∀ w ∈ s.carros, w.id ≠ v1.id → w ∈ (cascadeDelete [v1.id] s).carros) ∧
    (∀ q ∈ s.orcamentos, q.carro_id ≠ some v1.id → q ∈ (cascadeDelete [v1.id] s).orcamentos) ∧
    (∀ c ∈ s.clientes, (c ∈ (cascadeDelete [v1.id] s).clientes ↔
      (some c.id ∈ (cascadeDelete [v1.id] s).carros.map (fun w => w.cliente_id) ∨
       none ∈ (cascadeDelete [v1.id] s).carros.map (fun w => w.cliente_id)))) ∧
    ((∀ w ∈ (cascadeDelete [v1.id, v2.id] s).carros, w.cliente_id ≠ none) →
      ∀ c ∈ (cascadeDelete [v1.id, v2.id] s).clientes, c.id ≠ c1.id) := by
  have hkeep : ∀ c : Cliente, ∀ ids : List Nat, (c ∈ (cascadeDelete ids s).clientes ↔
      (c ∈ s.clientes ∧
        (some c.id ∈ (cascadeDelete ids s).carros.map (fun w => w.cliente_id) ∨
         none ∈ (cascadeDelete ids s).carros.map (fun w => w.cliente_id)))) := by
    intro c ids
    rw [cascadeDelete_clientes, List.mem_filter]
    have hcc : (cascadeDelete ids s).carros = (phase1 ids s).carros := by
      rw [cascadeDelete, orphanSweep_carros]
    rw [hcc]
    simp only [decide_eq_true_eq]
  have hv2mem : v2 ∈ (cascadeDelete [v1.id] s).carros := by
    rw [cascadeDelete_carros, List.mem_filter]
    refine ⟨hv2, ?_⟩
    simp only [decide_eq_true_eq, List.mem_singleton]
    exact fun h => hne (h.symm)
  refine ⟨?_, ?_, hv2mem, ?_, ?_, ?_, ?_, ?_⟩
  · rw [cascadeDelete_orcamentos, List.mem_filter]
    rintro ⟨-, hp⟩
    simp only [decide_eq_true_eq, List.forall_mem_singleton] at hp
    exact hp hqc
  · intro w hw
    rw [cascadeDelete_carros, List.mem_filter] at hw
    simpa using hw.2
  · rw [hkeep]
    refine ⟨hc1, Or.inl ?_⟩
    rw [List.mem_map]
    exact ⟨v2, hv2mem, hr2.symm ▸ rfl⟩
  · intro w hw hne1
    rw [cascadeDelete_carros, List.mem_filter]
    refine ⟨hw, ?_⟩
    simpa using hne1
  · intro q hq hqo
    rw [cascadeDelete_orcamentos, List.mem_filter]
    refine ⟨hq, ?_⟩
    simpa using hqo
  · intro c hc
    rw [hkeep]
    simp [hc]
  · intro hnn c hc hcid
    rw [hkeep] at hc
    rcases hc.2 with hsome | hnone
    · rw [List.mem_map] at hsome
      obtain ⟨w, hwmem, hwid⟩ := hsome
      have hws : w ∈ s.carros := by
        rw [cascadeDelete_carros] at hwmem
        exact (List.mem_filter.mp hwmem).1
      have hnotin : w.id ∉ [v1.id, v2.id] := by
        rw [cascadeDelete_carros, List.mem_filter] at hwmem
        simpa using hwmem.2
      have := hexact w hws (by rw [hwid, hcid])
      exact hnotin (by simpa using this)
    · rw [List.mem_map] at hnone
      obtain ⟨w, hwmem, hwid⟩ := hnone
      exact hnn w hwmem hwid

/-- A minimal instance of the cascade scenario: one client owning exactly
two Pronto vehicles, with one quote on the first. -/
def cexW : DB :=
  ⟨[⟨1, "C1", "t", 0⟩],
   [⟨1, some 1, "V1", 2020, "azul", "Pronto", 0⟩, ⟨2, some 1, "V2", 2021, "azul", "Pronto", 0⟩],
   [⟨1, some 1, "serv", 100, 100, 0⟩], 1, 2, 1⟩

/-- Claim C1 (witness): in cexW, the second vehicle survives the cascade
that deletes the first. -/
theorem C1_witness :
    (⟨2, some 1, "V2", 2021, "azul", "Pronto", 0⟩ : Carro) ∈ (cascadeDelete [1] cexW).carros :=
  (C1_cascade_behaviour cexW ⟨1, "C1", "t", 0⟩ ⟨1, some 1, "V1", 2020, "azul", "Pronto", 0⟩
    ⟨2, some 1, "V2", 2021, "azul", "Pronto", 0⟩ ⟨1, some 1, "serv", 100, 100, 0⟩
    (by decide) (by decide) (by decide) (by decide) (by decide) (by decide) (by decide)
    (by decide) (by decide)).2.2.1

/-- The database reached from empty by inserting client Ana Silva and then
a Civic registered to her, exactly as in the referential-listing scenario. -/
def anaDB : DB :=
  pagina_carros_submit "Ana Silva" "Civic" 2023 "preta" "Em revisão" 0
    (pagina_clientes_submit "Ana Silva" "555-0100" 0 emptyDB).1

/-- Claim C7 (code bug): after inserting client Ana Silva (id one) and a
Civic referencing her, the vehicles-page listing query does not return the
single joined row the claim promises. Its projection names criado_em
without a table qualifier, and after init_db both carros and clientes
carry a criado_em column, so SQLite rejects the query as ambiguous and the
page errors. The same projection with the qualified column, as used by
the deliveries and export pages, returns exactly the claimed row, which is
what carrosViewRows evaluates here. -/
theorem C7_listing_query_ambiguous :
    anaDB.clientes = [⟨1, "Ana Silva", "555-0100", 0⟩] ∧
    anaDB.carros = [⟨1, some 1, "Civic", 2023, "preta", "Em revisão", 0⟩] ∧
    pagina_carros_rows anaDB = Except.error "ambiguous column name: criado_em" ∧
    carrosViewRows anaDB = [⟨1, "Ana Silva", "Civic", 2023, "preta", "Em revisão", 0⟩] :=
  ⟨by decide, by decide, rfl, by decide⟩

/-- Claim C8: whenever at least one vehicle remaining after the selected
removals has a NULL cliente_id, the orphan sweep deletes no client row at
all: the client table after the cascade equals the client table right
after the per-vehicle loop. -/
theorem C8_null_blocks_orphan_sweep (ids : List Nat) (s : DB)
    (h : none ∈ (phase1 ids s).carros.map (fun w => w.cliente_id)) :
    (cascadeDelete ids s).clientes = (phase1 ids s).clientes := by
  rw [cascadeDelete, orphanSweep_clientes]
  rw [List.filter_eq_self]
  intro c _
  simp [h]

/-- A state with one NULL-reference vehicle surviving the cascade on the
other vehicle, and a client owning nothing. -/
def nullDB : DB :=
  ⟨[⟨1, "C1", "t", 0⟩, ⟨2, "C2", "t", 0⟩],
   [⟨1, some 1, "V1", 2020, "azul", "Pronto", 0⟩, ⟨2, none, "V2", 2021, "azul", "Em revisão", 0⟩],
   [], 2, 2, 0⟩

/-- Claim C8 (witness): deleting vehicle one of nullDB leaves the client
table exactly as the loop left it — nobody is swept, not even the
vehicle-less client two. -/
theorem C8_witness : (cascadeDelete [1] nullDB).clientes = (phase1 [1] nullDB).clientes :=
  C8_null_blocks_orphan_sweep [1] nullDB (by decide)

/-! ### Preservation lemmas for the operation semantics -/

theorem orphanSweep_seq_carros (s : DB) : (orphanSweep s).seq_carros = s.seq_carros := rfl

theorem cascadeDelete_seq_carros (ids : List Nat) (s : DB) :
    (cascadeDelete ids s).seq_carros = s.seq_carros := by
  rw [cascadeDelete, orphanSweep_seq_carros, phase1_seq_carros]

theorem pagina_clientes_submit_carros (n t : String) (now : Nat) (s : DB) :
    (pagina_clientes_submit n t now s).1.carros = s.carros ∧
    (pagina_clientes_submit n t now s).1.seq_carros = s.seq_carros := by
  rw [pagina_clientes_submit]
  split <;> exact ⟨rfl, rfl⟩

theorem pagina_orcamentos_submit_carros (m sv : String) (pe pf : Int) (now : Nat) (s : DB) :
    (pagina_orcamentos_submit m sv pe pf now s).carros = s.carros ∧
    (pagina_orcamentos_submit m sv pe pf now s).seq_carros = s.seq_carros := by
  rw [pagina_orcamentos_submit]
  split
  · exact ⟨rfl, rfl⟩
  · split
    · exact ⟨rfl, rfl⟩
    · split <;> exact ⟨rfl, rfl⟩

theorem pagina_carros_submit_spec (cn m : String) (a : Int) (co st : String) (now : Nat)
    (s : DB) :
    pagina_carros_submit cn m a co st now s = s ∨
    (∃ w : Carro, w.id = s.seq_carros + 1 ∧
      (pagina_carros_submit cn m a co st now s).carros = s.carros ++ [w] ∧
      (pagina_carros_submit cn m a co st now s).seq_carros = s.seq_carros + 1) := by
  rw [pagina_carros_submit]
  split
  · exact Or.inl rfl
  · split
    · exact Or.inl rfl
    · split
      · exact Or.inl rfl
      · exact Or.inr ⟨_, rfl, rfl, rfl⟩

/-- The deliveries action either does nothing or runs the cascade over a
selection of ids each of which belongs to a Pronto vehicle of the state. -/
theorem pagina_entregas_remove_spec (sel : List String) (s : DB) :
    pagina_entregas_remove sel s = s ∨
    (∃ ids : List Nat, (∀ i ∈ ids, ∃ w ∈ s.carros, w.status = "Pronto" ∧ w.id = i) ∧
      pagina_entregas_remove sel s = cascadeDelete ids s) := by
  rw [pagina_entregas_remove]
  split
  · exact Or.inl rfl
  · split
    · exact Or.inl rfl
    · refine Or.inr ⟨_, ?_, rfl⟩
      intro i hi
      rw [List.mem_map] at hi
      obtain ⟨p, hp, rfl⟩ := hi
      rw [List.mem_filter] at hp
      have hp1 := hp.1
      rw [entregasCandidatos, List.mem_filter] at hp1
      obtain ⟨hj, hst⟩ := hp1
      have hm := mem_joinCarrosClientes.mp hj
      exact ⟨p.1, hm.1, by simpa using hst, rfl⟩

theorem carrosWF_cascadeDelete (ids : List Nat) (s : DB) (h : CarrosWF s) :
    CarrosWF (cascadeDelete ids s) := by
  constructor
  · intro w hw
    rw [cascadeDelete_carros, List.mem_filter] at hw
    rw [cascadeDelete_seq_carros]
    exact h.1 w hw.1
  · rw [cascadeDelete_carros]
    exact List.Nodup.sublist (List.Sublist.map _ (List.filter_sublist _)) h.2

theorem carrosWF_runOp (s : DB) (o : Op) (h : CarrosWF s) : CarrosWF (runOp s o) := by
  cases o with
  | cliente n t now =>
    obtain ⟨h1, h2⟩ := pagina_clientes_submit_carros n t now s
    show CarrosWF (pagina_clientes_submit n t now s).1
    exact ⟨by rw [h1, h2]; exact h.1, by rw [h1]; exact h.2⟩
  | carro cn m a co st now =>
    show CarrosWF (pagina_carros_submit cn m a co st now s)
    rcases pagina_carros_submit_spec cn m a co st now s with heq | ⟨w, hwid, hcar, hseq⟩
    · rw [heq]; exact h
    · constructor
      · intro x hx
        rw [hseq]
        rw [hcar, List.mem_append] at hx
        rcases hx with hx | hx
        · exact le_trans (h.1 x hx) (Nat.le_succ _)
        · rw [List.mem_singleton] at hx
          subst hx
          rw [hwid]
      · rw [hcar, List.map_append, List.nodup_append]
        refine ⟨h.2, by simp, ?_⟩
        intro a2 ha hb
        rw [List.mem_map] at ha
        obtain ⟨y, hy, rfl⟩ := ha
        simp only [List.map_cons, List.map_nil, List.mem_singleton] at hb
        have hy2 := h.1 y hy
        rw [hb, hwid] at hy2
        omega
  | orcamento m sv pe pf now =>
    obtain ⟨h1, h2⟩ := pagina_orcamentos_submit_carros m sv pe pf now s
    show CarrosWF (pagina_orcamentos_submit m sv pe pf now s)
    exact ⟨by rw [h1, h2]; exact h.1, by rw [h1]; exact h.2⟩
  | entregar sel =>
    show CarrosWF (pagina_entregas_remove sel s)
    rcases pagina_entregas_remove_spec sel s with heq | ⟨ids, -, heq⟩
    · rw [heq]; exact h
    · rw [heq]; exact carrosWF_cascadeDelete ids s h
  | exportar d1 d2 filt => exact h

theorem mem_carros_cascadeDelete (ids : List Nat) (s : DB) (v : Carro)
    (hv : v ∈ s.carros) (hnot : v.id ∉ ids) : v ∈ (cascadeDelete ids s).carros := by
  rw [cascadeDelete_carros, List.mem_filter]
  exact ⟨hv, by simpa using hnot⟩

theorem mem_carros_runOp (s : DB) (o : Op) (v : Carro) (hWF : CarrosWF s)
    (hv : v ∈ s.carros) (hst : v.status ≠ "Pronto") : v ∈ (runOp s o).carros := by
  cases o with
  | cliente n t now =>
    show v ∈ (pagina_clientes_submit n t now s).1.carros
    rw [(pagina_clientes_submit_carros n t now s).1]
    exact hv
  | carro cn m a co st now =>
    show v ∈ (pagina_carros_submit cn m a co st now s).carros
    rcases pagina_carros_submit_spec cn m a co st now s with heq | ⟨w, -, hcar, -⟩
    · rw [heq]; exact hv
    · rw [hcar]
      exact List.mem_append.mpr (Or.inl hv)
  | orcamento m sv pe pf now =>
    show v ∈ (pagina_orcamentos_submit m sv pe pf now s).carros
    rw [(pagina_orcamentos_submit_carros m sv pe pf now s).1]
    exact hv
  | entregar sel =>
    show v ∈ (pagina_entregas_remove sel s).carros
    rcases pagina_entregas_remove_spec sel s with heq | ⟨ids, hids, heq⟩
    · rw [heq]; exact hv
    · rw [heq]
      apply mem_carros_cascadeDelete _ _ _ hv
      intro hin
      obtain ⟨w, hw, hwst, hwid⟩ := hids _ hin
      have hvw : v = w := List.inj_on_of_nodup_map hWF.2 hv hw (by rw [hwid])
      exact hst (hvw ▸ hwst)
  | exportar d1 d2 filt => exact hv

/-- Claim C9: the deliveries page builds its deletable set only from
vehicles whose status is Pronto, and no other operation removes vehicle
rows, so across every sequence of user operations a vehicle whose status
is not Pronto is never removed from the store. The well-formedness
hypothesis is the AUTOINCREMENT primary-key discipline of SQLite. -/
theorem C9_non_pronto_never_deleted (ops : List Op) (s : DB) (v : Carro)
    (hWF : CarrosWF s) (hv : v ∈ s.carros) (hst : v.status ≠ "Pronto") :
    v ∈ (run ops s).carros := by
  induction ops generalizing s with
  | nil => exact hv
  | cons o ops ih =>
    exact ih (runOp s o) (carrosWF_runOp s o hWF) (mem_carros_runOp s o v hWF hv hst)

/-- One Pronto vehicle and one vehicle still in revision, both of client
one. -/
def wfDB : DB :=
  ⟨[⟨1, "C1", "t", 0⟩],
   [⟨1, some 1, "V1", 2020, "azul", "Pronto", 0⟩,
    ⟨2, some 1, "V2", 2021, "azul", "Em revisão", 0⟩],
   [], 1, 2, 0⟩

/-- Claim C9 (witness): delivering the Pronto vehicle of wfDB leaves the
Em revisão vehicle in the store. -/
theorem C9_witness :
    (⟨2, some 1, "V2", 2021, "azul", "Em revisão", 0⟩ : Carro) ∈
      (run [Op.entregar ["C1 – V1 (azul)"]] wfDB).carros :=
  C9_non_pronto_never_deleted [Op.entregar ["C1 – V1 (azul)"]] wfDB
    ⟨2, some 1, "V2", 2021, "azul", "Em revisão", 0⟩
    ⟨by decide, by decide⟩ (by decide) (by decide)

/-- No pair produced by the vehicle/client join originates from a vehicle
whose cliente_id matches no client. -/
theorem join_no_orphan (s : DB) (v : Carro)
    (hnd : (s.carros.map (fun w => w.id)).Nodup) (hv : v ∈ s.carros)
    (horb : ∀ c ∈ s.clientes, some c.id ≠ v.cliente_id) :
    ∀ p ∈ joinCarrosClientes s, p.1.id ≠ v.id := by
  intro p hp heq
  obtain ⟨h1, h2, h3⟩ := mem_joinCarrosClientes.mp hp
  have hpv : p.1 = v := List.inj_on_of_nodup_map hnd h1 hv heq
  exact horb p.2 h2 (hpv ▸ h3)

/-- Claim C10: every vehicle listing that shows the client name joins
carros with clientes, so a vehicle whose cliente_id matches no existing
client contributes no row to the vehicles-page display, to the delivery
candidate list, or to the exported vehicle sheet, for any date range and
status filter: orphaned vehicles are invisible at the public interface. -/
theorem C10_orphans_invisible (s : DB) (v : Carro)
    (hnd : (s.carros.map (fun w => w.id)).Nodup) (hv : v ∈ s.carros)
    (horb : ∀ c ∈ s.clientes, some c.id ≠ v.cliente_id) :
    (∀ rows, pagina_carros_rows s = Except.ok rows → ∀ r ∈ rows, r.id ≠ v.id) ∧
    (∀ p ∈ entregasCandidatos s, p.1.id ≠ v.id) ∧
    (∀ d1 d2 : Nat, ∀ filt : List String,
      ∀ r ∈ (buildReport d1 d2 filt s).carros, r.id ≠ v.id) := by
  have hjoin := join_no_orphan s v hnd hv horb
  refine ⟨?_, ?_, ?_⟩
  · intro rows hrows
    have herr : pagina_carros_rows s = Except.error "ambiguous column name: criado_em" := rfl
    rw [herr] at hrows
    exact absurd hrows (by simp)
  · intro p hp
    rw [entregasCandidatos, List.mem_filter] at hp
    exact hjoin p hp.1
  · intro d1 d2 filt r hr
    have hq : r ∈ exportCarrosQuery d1 d2 s := by
      rw [buildReport_carros] at hr
      by_cases hf : filt.isEmpty
      · rwa [if_pos hf] at hr
      · rw [if_neg hf, List.mem_filter] at hr
        exact hr.1
    rw [exportCarrosQuery, List.mem_map] at hq
    obtain ⟨p, hp, rfl⟩ := hq
    rw [List.mem_filter] at hp
    exact hjoin p hp.1

/-- A valid client-vehicle pair next to an orphaned vehicle whose
cliente_id references the nonexistent client ninety-nine. -/
def orphanDB : DB :=
  ⟨[⟨1, "Ana", "t", 0⟩],
   [⟨1, some 1, "V1", 2020, "azul", "Pronto", 0⟩,
    ⟨2, some 99, "Civic", 2020, "azul", "Pronto", 0⟩],
   [], 1, 2, 0⟩

/-- Claim C10 (witness): the one delivery candidate of orphanDB is the
non-orphan vehicle, not the orphan with id two. -/
theorem C10_witness :
    ((⟨1, some 1, "V1", 2020, "azul", "Pronto", 0⟩ : Carro),
     (⟨1, "Ana", "t", 0⟩ : Cliente)).1.id ≠
      (⟨2, some 99, "Civic", 2020, "azul", "Pronto", 0⟩ : Carro).id :=
  (C10_orphans_invisible orphanDB ⟨2, some 99, "Civic", 2020, "azul", "Pronto", 0⟩
    (by decide) (by decide) (by decide)).2.1
    (⟨1, some 1, "V1", 2020, "azul", "Pronto", 0⟩, ⟨1, "Ana", "t", 0⟩) (by decide)

end Workshop
